import Mathlib

/-!
Shallow embedding of the authentication and SSO-provisioning core of the
potato-registry package registry (src/potato_registry/core/{security,deps,sso}.py
and src/potato_registry/routes/{sso,users}.py), together with theorems checking
the design specification's claims about it.

External collaborators (the Argon2 KDF, the jose JWT library, httpx network
responses, random token generation) are modelled at their interface boundary:
the KDF becomes a function parameter, network fetches become an inductive
response parameter, and the jose encode/decode pair becomes a transparent
signed-token record checked for key, algorithm and expiry.
-/

/-- Error detail tags standing for the French HTTPException detail strings of
the source; each constructor corresponds to one raise site. -/
inductive ErrDetail where
  /-- detail of sso.py line 29: OIDC issuer URL not configured (503). -/
  | issuerNotConfigured
  /-- detail of sso.py line 72: network failure reaching the issuer (503). -/
  | oidcConnectionFailed
  /-- detail of sso.py line 78: error while processing OIDC metadata (500). -/
  | oidcMetadataProcessing
  /-- detail of sso.py line 93: OIDC state invalid or missing (400). -/
  | stateInvalid
  /-- detail of sso.py line 97: OIDC state expired (400). -/
  | stateExpired
  /-- detail of deps.py line 30: account disabled (401, "Compte désactivé"). -/
  | accountDisabled
  /-- detail of sso.py line 126: failed to obtain the JWKS URI (503). -/
  | jwksUriFetchFailed
  /-- detail of sso.py line 160: failed to fetch the JWKS document (503). -/
  | jwksFetchFailed
  /-- detail of sso.py line 163: verification key (KID) not found (401). -/
  | jwksKidNotFound
  /-- detail of routes/sso.py line 154: local user already exists (403). -/
  | localUserExists
  /-- detail of routes/sso.py line 183: local account found, linking disabled (403). -/
  | linkingDisabled
  /-- detail of routes/users.py line 138: target user not found (404). -/
  | targetUserNotFound
  /-- detail of routes/users.py line 143: may only generate tokens for own account (403). -/
  | tokenGenForbidden
  /-- detail of routes/users.py line 152: tokens only for service or SSO accounts (400). -/
  | tokenGenBadAccountType
  deriving DecidableEq, Repr

/-- An HTTPException as raised by the source: a status code and a detail tag. -/
structure HTTPError where
  status : Nat
  detail : ErrDetail
  deriving DecidableEq, Repr

/-- The User model of models.py, restricted to the fields the authentication
core reads or writes (tracking timestamps and roles are omitted). -/
structure User where
  id : Nat
  username : String
  email : Option String
  hashed_password : Option String
  is_active : Bool
  is_superuser : Bool
  is_service_account : Bool
  is_sso_managed : Bool
  deriving DecidableEq, Repr

/-- The persistence collaborator: the users table as a list of rows. -/
abbrev UserDB : Type := List User

/-- Model of `User.get_or_none(username=...)`: first row with that username. -/
def findUserByUsername (db : UserDB) (username : String) : Option User :=
  db.find? (fun u => u.username = username)

/-- Outcome of Tortoise `get_or_none` on a column without a uniqueness
constraint: no row, exactly one row, or the MultipleObjectsReturned
exception when several rows match. -/
inductive GetOrNone (α : Type) where
  | noMatch : GetOrNone α
  | one (a : α) : GetOrNone α
  | multiple : GetOrNone α
  deriving DecidableEq, Repr

/-- Model of `User.get_or_none(email=...)`. Unlike `username`, the `email`
column is not unique in models.py, so `get_or_none` returns the single
matching row, None when there is no match, and raises
MultipleObjectsReturned when two or more rows carry that email (a NULL
email never matches). -/
def findUserByEmail (db : UserDB) (email : String) : GetOrNone User :=
  match db.filter (fun u => u.email = some email) with
  | [] => .noMatch
  | [u] => .one u
  | _ :: _ :: _ => .multiple

/-- How a call of `provision_sso_user` can fail: a raised HTTPException, or
the Tortoise MultipleObjectsReturned exception propagating uncaught out of
the email lookup. -/
inductive ProvisionError where
  | http (e : HTTPError)
  | multipleObjectsReturned
  deriving DecidableEq, Repr

/-- Model of `User.get_or_none(id=...)`: first row with that id. -/
def findUserById (db : UserDB) (i : Nat) : Option User :=
  db.find? (fun u => u.id = i)

/-- Model of `user.save()`: replace the row with the same primary key. -/
def saveUser (db : UserDB) (u : User) : UserDB :=
  db.map (fun v => if v.id = u.id then u else v)

/-- Association-list lookup, modelling Python `dict.get` / `in`. -/
def alLookup {κ α : Type} [DecidableEq κ] : List (κ × α) → κ → Option α
  | [], _ => none
  | (k, v) :: rest, k0 => if k = k0 then some v else alLookup rest k0

/-- Association-list deletion, modelling Python `del d[k]`. -/
def alErase {κ α : Type} [DecidableEq κ] : List (κ × α) → κ → List (κ × α)
  | [], _ => []
  | (k, v) :: rest, k0 =>
    if k = k0 then alErase rest k0 else (k, v) :: alErase rest k0

/-- Association-list upsert, modelling Python `d[k] = v`: replace the first
binding of the key, or append a fresh binding. -/
def alUpsert {κ α : Type} [DecidableEq κ] : List (κ × α) → κ → α → List (κ × α)
  | [], k0, v0 => [(k0, v0)]
  | (k, v) :: rest, k0, v0 =>
    if k = k0 then (k0, v0) :: rest else (k, v) :: alUpsert rest k0 v0

/-- The OIDC settings of config.py restricted to the fields the modelled
code reads. -/
structure OIDCSettings where
  enabled : Bool
  issuer_url : Option String
  allow_account_linking : Bool
  deriving DecidableEq, Repr

/-- The app settings of config.py restricted to the fields the token
issuer/verifier reads. -/
structure AppSettings where
  secret_key : String
  jwt_algorithm : String
  jwt_access_token_expire_minutes : Int
  deriving DecidableEq, Repr

/-- Model of `provision_sso_user` in routes/sso.py. Database reads/writes are
threaded explicitly: the result carries the returned user and the database
after the `save()`/`create()`. `next_id` stands for the primary key the
persistence layer would assign to a freshly created row. -/
def provision_sso_user (cfg : OIDCSettings) (db : UserDB) (next_id : Nat)
    (username email : String) : Except ProvisionError (User × UserDB) :=
  match findUserByUsername db username with
  | some sso_user =>
    if sso_user.is_sso_managed = false ∧ cfg.allow_account_linking = false then
      .error (.http ⟨403, .localUserExists⟩)
    else
      let updated := { sso_user with is_sso_managed := true, email := some email }
      .ok (updated, saveUser db updated)
  | none =>
    match findUserByEmail db email with
    | .multiple => .error .multipleObjectsReturned
    | .one local_user_by_email =>
      if cfg.allow_account_linking then
        let linked := { local_user_by_email with
                        username := username, is_sso_managed := true }
        .ok (linked, saveUser db linked)
      else
        .error (.http ⟨403, .linkingDisabled⟩)
    | .noMatch =>
      let created : User :=
        { id := next_id, username := username, email := some email,
          hashed_password := none, is_active := true, is_superuser := false,
          is_service_account := false, is_sso_managed := true }
      .ok (created, db ++ [created])

/-- Model of `verify_password` in core/security.py; the Argon2 `pwd_context`
is the opaque KDF parameter `kdf`. Fails closed on an empty stored hash. -/
def verify_password (kdf : String → String → Bool)
    (plain_password hashed_password : String) : Bool :=
  if hashed_password = "" then false else kdf plain_password hashed_password

/-- Python truthiness of an optional string: `not x` holds when the field is
NULL or the empty string. -/
def optStrFalsy : Option String → Bool
  | none => true
  | some s => s = ""

/-- The HTTPBasicCredentials carried by the Authorization header. -/
structure HTTPBasicCredentials where
  username : String
  password : String
  deriving DecidableEq, Repr

/-- Model of `get_current_pip_user` in core/deps.py: Basic-credential
resolution. `Except.ok none` is the no-identity outcome (the function returns
None); `Except.error` models a raised HTTPException. -/
def get_current_pip_user (kdf : String → String → Bool) (db : UserDB)
    (credentials : Option HTTPBasicCredentials) : Except HTTPError (Option User) :=
  match credentials with
  | none => .ok none
  | some c =>
    match findUserByUsername db c.username with
    | none => .ok none
    | some user =>
      if user.is_active = false then
        .error ⟨401, .accountDisabled⟩
      else if optStrFalsy user.hashed_password then
        .ok none
      else if verify_password kdf c.password (user.hashed_password.getD "") then
        .ok (some user)
      else
        .ok none

/-- The CSRF state cache of core/sso.py: state token → expiry timestamp. -/
abbrev StateCache : Type := List (String × Int)

/-- TTL of a CSRF state entry (core/sso.py). -/
def STATE_TTL_SECONDS : Int := 300

/-- Model of `check_and_clear_state` in core/sso.py. The global STATE_CACHE is
threaded explicitly; `Except.ok ()` is a normal return, `Except.error` a
raised HTTPException, and the second component is the cache afterwards. -/
def check_and_clear_state (cache : StateCache) (now : Int) (state : String) :
    Except HTTPError Unit × StateCache :=
  match alLookup cache state with
  | none => (.error ⟨400, .stateInvalid⟩, cache)
  | some expiry =>
    if expiry < now then
      (.error ⟨400, .stateExpired⟩, alErase cache state)
    else
      (.ok (), alErase cache state)

/-- An OIDC discovery document, modelled as its JSON object: a finite map
from field names to string values. -/
abbrev OidcDoc : Type := List (String × String)

/-- The fields `get_oidc_metadata` requires in a discovery document. -/
def requiredOidcFields : List String :=
  ["authorization_endpoint", "token_endpoint", "jwks_uri"]

/-- Check of core/sso.py line 52: all essential endpoints are present. -/
def hasRequiredOidcFields (doc : OidcDoc) : Bool :=
  requiredOidcFields.all (fun k => (alLookup doc k).isSome)

/-- An OIDC metadata cache entry: the document and its expiry timestamp. -/
structure MetaCacheEntry where
  data : OidcDoc
  expires_at : Int

/-- The OIDC metadata cache, keyed by issuer URL. -/
abbrev MetaCache : Type := List (String × MetaCacheEntry)

/-- TTL of a cached discovery document (core/sso.py). -/
def CACHE_TTL_SECONDS : Int := 3600

/-- Outcome of the httpx GET of the discovery URL, seen at the interface:
a transport error (httpx.RequestError), a 4xx/5xx status raised by
`raise_for_status` (httpx.HTTPStatusError, which is not a RequestError),
a JSON parse failure, or a parsed body. -/
inductive DiscoveryResponse where
  | netError
  | statusError
  | badJson
  | ok (doc : OidcDoc)

/-- Fetch-and-validate branch of `get_oidc_metadata` (core/sso.py lines
43-79): the try/except over the network call. Transport errors map to 503;
the raise_for_status error, JSON errors and the missing-endpoint ValueError
are all caught by the generic `except Exception` and map to 500. Only the
success path touches the cache. -/
def oidcFetch (cache : MetaCache) (now : Int) (resp : DiscoveryResponse)
    (issuer_url : String) : Except HTTPError OidcDoc × MetaCache :=
  match resp with
  | .netError => (.error ⟨503, .oidcConnectionFailed⟩, cache)
  | .statusError => (.error ⟨500, .oidcMetadataProcessing⟩, cache)
  | .badJson => (.error ⟨500, .oidcMetadataProcessing⟩, cache)
  | .ok doc =>
    if hasRequiredOidcFields doc then
      (.ok doc, alUpsert cache issuer_url ⟨doc, now + CACHE_TTL_SECONDS⟩)
    else
      (.error ⟨500, .oidcMetadataProcessing⟩, cache)

/-- Model of `get_oidc_metadata` in core/sso.py. The global metadata cache is
threaded explicitly and returned alongside the result; `resp` is the provider
response the network would deliver on this call. -/
def get_oidc_metadata (cfg : OIDCSettings) (cache : MetaCache) (now : Int)
    (resp : DiscoveryResponse) : Except HTTPError OidcDoc × MetaCache :=
  match cfg.issuer_url with
  | none => (.error ⟨503, .issuerNotConfigured⟩, cache)
  | some issuer_url =>
    if issuer_url = "" then
      (.error ⟨503, .issuerNotConfigured⟩, cache)
    else
      match alLookup cache issuer_url with
      | some entry =>
        if now < entry.expires_at then (.ok entry.data, cache)
        else oidcFetch cache now resp issuer_url
      | none => oidcFetch cache now resp issuer_url

/-- A raw JWK as it appears in the fetched JWKS document: its declared
key-id (`kid`, possibly absent) and the rest of the key material, opaque. -/
structure JwkRaw where
  kid : Option String
  material : String
  deriving DecidableEq, Repr

/-- A verifiable public key object as produced by `jwk.construct`. -/
structure PublicKey where
  ofRaw : JwkRaw
  deriving DecidableEq, Repr

/-- Model of `jwk.construct`: the opaque parse of a raw JWK into a
verifiable key object. -/
def jwk_construct (k : JwkRaw) : PublicKey := ⟨k⟩

/-- A JWKS cache entry: the constructed key and its expiry timestamp. -/
structure JwksCacheEntry where
  key : PublicKey
  expires_at : Int
  deriving DecidableEq, Repr

/-- The JWKS cache, keyed by the kid each fetched key declares (possibly
absent, as `key.get("kid")` may be None). -/
abbrev JwksCache : Type := List (Option String × JwksCacheEntry)

/-- TTL of a cached JWKS key (core/sso.py). -/
def JWKS_TTL_SECONDS : Int := 86400

/-- Outcome of the httpx GET of the JWKS URI, seen at the interface. -/
inductive JwksResponse where
  | httpError
  | ok (keys : List JwkRaw)

/-- The for-loop of `get_jwks_key` (core/sso.py lines 139-149): construct
every key of the response, upsert each into the cache under its own kid with
a 24-hour TTL, and remember the key matching the requested kid. -/
def cacheJwksKeys (now : Int) (kid : String) :
    List JwkRaw → JwksCache → Option PublicKey → Option PublicKey × JwksCache
  | [], cache, target => (target, cache)
  | k :: rest, cache, target =>
    let public_key := jwk_construct k
    let cache2 := alUpsert cache k.kid ⟨public_key, now + JWKS_TTL_SECONDS⟩
    let target2 := if k.kid = some kid then some public_key else target
    cacheJwksKeys now kid rest cache2 target2

/-- Cache-miss branch of `get_jwks_key` (core/sso.py lines 118-163). Any
failure obtaining the metadata or a missing/empty jwks_uri maps to 503; an
httpx.HTTPError fetching the key set maps to 503; an absent requested kid
after processing the fetched keys raises JWTError, surfaced as 401. -/
def jwksFetchBranch (now : Int) (kid : String) (cache : JwksCache)
    (metaOutcome : Except HTTPError OidcDoc) (resp : JwksResponse) :
    Except HTTPError PublicKey × JwksCache :=
  match metaOutcome with
  | .error _ => (.error ⟨503, .jwksUriFetchFailed⟩, cache)
  | .ok doc =>
    match alLookup doc "jwks_uri" with
    | none => (.error ⟨503, .jwksUriFetchFailed⟩, cache)
    | some uri =>
      if uri = "" then (.error ⟨503, .jwksUriFetchFailed⟩, cache)
      else
        match resp with
        | .httpError => (.error ⟨503, .jwksFetchFailed⟩, cache)
        | .ok keys =>
          match cacheJwksKeys now kid keys cache none with
          | (some target_key, cache2) => (.ok target_key, cache2)
          | (none, cache2) => (.error ⟨401, .jwksKidNotFound⟩, cache2)

/-- Model of `get_jwks_key` in core/sso.py. The global JWKS cache is threaded
explicitly; `metaOutcome` is what `get_oidc_metadata` would deliver on this
call, and `resp` what the network would deliver for the JWKS URI. -/
def get_jwks_key (now : Int) (kid : String) (cache : JwksCache)
    (metaOutcome : Except HTTPError OidcDoc) (resp : JwksResponse) :
    Except HTTPError PublicKey × JwksCache :=
  match alLookup cache (some kid) with
  | some entry =>
    if now < entry.expires_at then (.ok entry.key, cache)
    else jwksFetchBranch now kid cache metaOutcome resp
  | none => jwksFetchBranch now kid cache metaOutcome resp

/-- The claims payload `create_access_token` encodes: the copied `data` dict
(holding `username`) updated with the `sub` and `exp` claims. -/
structure Claims where
  username : String
  sub : String
  exp : Int
  deriving DecidableEq, Repr

/-- A signed JWT at the jose interface: the payload plus the signing key and
algorithm the signature binds it to. -/
structure Jwt where
  payload : Claims
  key : String
  alg : String
  deriving DecidableEq, Repr

/-- Modelled from the spec: `jose.jwt.encode`, the external signing library,
specified at its interface boundary only (section 4.2 of the spec). -/
def jose_jwt_encode (payload : Claims) (key alg : String) : Jwt :=
  ⟨payload, key, alg⟩

/-- Modelled from the spec: `jose.jwt.decode` — signature and expiry checked
atomically; any failure (wrong key, algorithm not allowed, expired) collapses
to a single Invalid outcome, here `none`. -/
def jose_jwt_decode (tok : Jwt) (key : String) (algs : List String)
    (now : Int) : Option Claims :=
  if tok.key = key ∧ tok.alg ∈ algs ∧ now < tok.payload.exp then
    some tok.payload
  else
    none

/-- The `data` dict passed to `create_access_token` by its callers. -/
structure TokenData where
  username : String
  deriving DecidableEq, Repr

/-- Model of `create_access_token` in core/security.py. `expires_delta` is in
seconds (the timedelta); the default lifetime is the configured minutes. -/
def create_access_token (cfg : AppSettings) (now : Int) (data : TokenData)
    (expires_delta : Option Int) : Jwt :=
  let expire : Int :=
    match expires_delta with
    | some d => now + d
    | none => now + cfg.jwt_access_token_expire_minutes * 60
  jose_jwt_encode ⟨data.username, data.username, expire⟩
    cfg.secret_key cfg.jwt_algorithm

/-- Model of `decode_access_token` in core/security.py: decode with the
process secret and the single configured algorithm; None on any JWTError. -/
def decode_access_token (cfg : AppSettings) (now : Int) (tok : Jwt) :
    Option Claims :=
  jose_jwt_decode tok cfg.secret_key [cfg.jwt_algorithm] now

/-- Confirmation-message tag of the generate-token route, standing for the
two French message strings (routes/users.py lines 164-169). -/
inductive TokenMessage where
  | forOwnAccount
  | forOtherAccount (username : String)
  deriving DecidableEq, Repr

/-- The TokenGenerateResponse schema: the raw token and the message. -/
structure TokenGenerateResponse where
  token : String
  message : TokenMessage
  deriving DecidableEq, Repr

/-- Target-account resolution of `generate_token` (routes/users.py lines
130-147): self, or any account when the caller is a superuser. -/
def resolve_target_user (db : UserDB) (current_user : User) (user_id : Nat) :
    Except HTTPError User :=
  if current_user.id ≠ user_id then
    if current_user.is_superuser then
      match findUserById db user_id with
      | none => .error ⟨404, .targetUserNotFound⟩
      | some target_user => .ok target_user
    else
      .error ⟨403, .tokenGenForbidden⟩
  else
    .ok current_user

/-- Model of the `generate_token` route in routes/users.py. `new_token` is
the random string `generate_secure_token` would produce and `hash` the
opaque KDF `get_password_hash`; the database is threaded explicitly. -/
def generate_token (db : UserDB) (current_user : User) (user_id : Nat)
    (new_token : String) (hash : String → String) :
    Except HTTPError TokenGenerateResponse × UserDB :=
  match resolve_target_user db current_user user_id with
  | .error e => (.error e, db)
  | .ok target_user =>
    if target_user.is_service_account = false ∧ target_user.is_sso_managed = false then
      (.error ⟨400, .tokenGenBadAccountType⟩, db)
    else
      let hashed_token := hash new_token
      let saved := { target_user with hashed_password := some hashed_token }
      let msg := if target_user.id = current_user.id then
          TokenMessage.forOwnAccount
        else
          TokenMessage.forOtherAccount target_user.username
      (.ok ⟨new_token, msg⟩, saveUser db saved)

/-- A KDF that accepts every (plain, hash) pair: stands for presenting the
correct password in concrete scenarios. -/
def kdfAccept : String → String → Bool := fun _ _ => true

/-- A KDF that rejects every (plain, hash) pair: stands for presenting a
wrong password in concrete scenarios. -/
def kdfReject : String → String → Bool := fun _ _ => false

/-- A concrete hashing function for concrete scenarios. -/
def hashConcat : String → String := fun s => String.append "hashed-" s

/-- A local, non-SSO account named robert with email bob at x dot com. -/
def robertUser : User :=
  { id := 1, username := "robert", email := some "bob@x.com",
    hashed_password := some "argon2-robert", is_active := true,
    is_superuser := false, is_service_account := false, is_sso_managed := false }

/-- A second local, non-SSO account carrying the same email as robert:
models.py puts no uniqueness constraint on email, and the create/update user
routes never check it, so this state is reachable. -/
def bobbyUser : User :=
  { id := 5, username := "bobby", email := some "bob@x.com",
    hashed_password := some "argon2-bobby", is_active := true,
    is_superuser := false, is_service_account := false, is_sso_managed := false }

/-- A disabled local account named carol. -/
def carolUser : User :=
  { id := 2, username := "carol", email := some "carol@x.com",
    hashed_password := some "argon2-carol", is_active := false,
    is_superuser := false, is_service_account := false, is_sso_managed := false }

/-- An active service account. -/
def ciBotUser : User :=
  { id := 3, username := "ci-bot", email := none,
    hashed_password := some "argon2-old", is_active := true,
    is_superuser := false, is_service_account := true, is_sso_managed := false }

/-- An active ordinary account: neither a service account nor SSO-managed. -/
def aliceUser : User :=
  { id := 4, username := "alice", email := some "a@x.com",
    hashed_password := some "argon2-alice", is_active := true,
    is_superuser := false, is_service_account := false, is_sso_managed := false }

theorem alLookup_erase_self {κ α : Type} [DecidableEq κ]
    (l : List (κ × α)) (k : κ) : alLookup (alErase l k) k = none := by
  induction l with
  | nil => rfl
  | cons p rest ih =>
    obtain ⟨k1, v1⟩ := p
    by_cases h : k1 = k
    · simpa [alErase, h] using ih
    · simp [alErase, alLookup, h, ih]

theorem alLookup_upsert_self {κ α : Type} [DecidableEq κ]
    (l : List (κ × α)) (k : κ) (v : α) : alLookup (alUpsert l k v) k = some v := by
  induction l with
  | nil => simp [alUpsert, alLookup]
  | cons p rest ih =>
    obtain ⟨k1, v1⟩ := p
    by_cases h : k1 = k
    · simp [alUpsert, alLookup, h]
    · simp [alUpsert, alLookup, h, ih]

theorem alLookup_upsert_ne {κ α : Type} [DecidableEq κ]
    (l : List (κ × α)) (k k0 : κ) (v : α) (hne : k0 ≠ k) :
    alLookup (alUpsert l k v) k0 = alLookup l k0 := by
  have hne' : ¬ k = k0 := fun h => hne h.symm
  induction l with
  | nil => simp [alUpsert, alLookup, hne']
  | cons p rest ih =>
    obtain ⟨k1, v1⟩ := p
    by_cases h : k1 = k
    · subst h
      simp [alUpsert, alLookup, hne']
    · simp [alUpsert, alLookup, h, ih]

theorem saveUser_length (db : UserDB) (u : User) :
    (saveUser db u).length = db.length := by
  simp [saveUser]

/-- C1 counterexample: with account-linking enabled, no account named bob,
and two accounts (robert and bobby) both holding the claimed email, some
account exists with the claimed email, yet provision_sso_user does not link
and return an account: the email lookup raises MultipleObjectsReturned,
which propagates uncaught. -/
theorem provision_duplicate_email_counterexample :
    findUserByUsername [robertUser, bobbyUser] "bob" = none ∧
    robertUser.email = some "bob@x.com" ∧
    robertUser ∈ [robertUser, bobbyUser] ∧
    provision_sso_user ⟨true, some "https://idp", true⟩ [robertUser, bobbyUser]
        7 "bob" "bob@x.com" =
      .error .multipleObjectsReturned ∧
    ∀ r : User × UserDB,
      provision_sso_user ⟨true, some "https://idp", true⟩ [robertUser, bobbyUser]
          7 "bob" "bob@x.com" ≠ .ok r :=
  ⟨rfl, rfl, List.mem_cons_self _ _, rfl,
   fun _ hr => Except.noConfusion hr⟩

/-- C1 (amended): when no account has the claimed username, exactly one
account exists with the claimed email, and account-linking is enabled,
provision_sso_user renames that account to the claimed username, marks it
SSO-managed, leaves its password hash and email unchanged, and returns that
same account (same id, no row added). -/
theorem provision_sso_links_by_email (cfg : OIDCSettings) (db : UserDB)
    (next_id : Nat) (username email : String) (a : User)
    (hu : findUserByUsername db username = none)
    (he : findUserByEmail db email = .one a)
    (hl : cfg.allow_account_linking = true) :
    provision_sso_user cfg db next_id username email =
      .ok ({ a with username := username, is_sso_managed := true },
           saveUser db { a with username := username, is_sso_managed := true }) ∧
    ({ a with username := username, is_sso_managed := true } : User).username
      = username ∧
    ({ a with username := username, is_sso_managed := true } : User).is_sso_managed
      = true ∧
    ({ a with username := username, is_sso_managed := true } : User).hashed_password
      = a.hashed_password ∧
    ({ a with username := username, is_sso_managed := true } : User).email
      = a.email ∧
    ({ a with username := username, is_sso_managed := true } : User).id = a.id ∧
    (saveUser db { a with username := username, is_sso_managed := true }).length
      = db.length := by
  refine ⟨?_, rfl, rfl, rfl, rfl, rfl, saveUser_length _ _⟩
  simp [provision_sso_user, hu, he, hl]

theorem provision_sso_links_by_email_witness :
    findUserByUsername [robertUser] "bob" = none ∧
    findUserByEmail [robertUser] "bob@x.com" = .one robertUser ∧
    (provision_sso_user ⟨true, some "https://idp", true⟩ [robertUser] 7
        "bob" "bob@x.com" =
      .ok ({ robertUser with username := "bob", is_sso_managed := true },
           saveUser [robertUser]
             { robertUser with username := "bob", is_sso_managed := true }) ∧
     ({ robertUser with username := "bob", is_sso_managed := true } : User).username
       = "bob" ∧
     ({ robertUser with username := "bob", is_sso_managed := true } : User).is_sso_managed
       = true ∧
     ({ robertUser with username := "bob", is_sso_managed := true } : User).hashed_password
       = robertUser.hashed_password ∧
     ({ robertUser with username := "bob", is_sso_managed := true } : User).email
       = robertUser.email ∧
     ({ robertUser with username := "bob", is_sso_managed := true } : User).id
       = robertUser.id ∧
     (saveUser [robertUser]
        { robertUser with username := "bob", is_sso_managed := true }).length
       = [robertUser].length) :=
  ⟨rfl, rfl,
   provision_sso_links_by_email ⟨true, some "https://idp", true⟩ [robertUser] 7
     "bob" "bob@x.com" robertUser rfl rfl rfl⟩

/-- C2 counterexample: Basic-credential resolution for a disabled account
with the correct password raises the account-disabled error with status 401
(Unauthorized), not 403 (Forbidden) as the claim states. -/
theorem pip_disabled_401_counterexample :
    get_current_pip_user kdfAccept [carolUser]
        (some { username := "carol", password := "pw" }) =
      .error { status := 401, detail := .accountDisabled } ∧
    (HTTPError.mk 401 .accountDisabled).status ≠ 403 :=
  ⟨rfl, by decide⟩

/-- C2 (amended): Basic-credential resolution for an existing account with
active = false fails with the 401 account-disabled error, an outcome distinct
from the no-identity result returned for unknown usernames or wrong
passwords. -/
theorem pip_disabled_distinct_error (kdf : String → String → Bool)
    (db : UserDB) (c : HTTPBasicCredentials) (u : User)
    (hf : findUserByUsername db c.username = some u)
    (ha : u.is_active = false) :
    get_current_pip_user kdf db (some c) =
      .error { status := 401, detail := .accountDisabled } ∧
    ∀ r : Option User, get_current_pip_user kdf db (some c) ≠ .ok r := by
  have h1 : get_current_pip_user kdf db (some c) =
      .error { status := 401, detail := .accountDisabled } := by
    simp [get_current_pip_user, hf, ha]
  refine ⟨h1, fun r hr => ?_⟩
  rw [h1] at hr
  exact Except.noConfusion hr

theorem pip_disabled_distinct_error_witness :
    findUserByUsername [carolUser] "carol" = some carolUser ∧
    carolUser.is_active = false ∧
    (get_current_pip_user kdfAccept [carolUser]
        (some { username := "carol", password := "pw" }) =
      .error { status := 401, detail := .accountDisabled } ∧
     ∀ r : Option User,
       get_current_pip_user kdfAccept [carolUser]
           (some { username := "carol", password := "pw" }) ≠ .ok r) :=
  ⟨rfl, rfl,
   pip_disabled_distinct_error kdfAccept [carolUser]
     { username := "carol", password := "pw" } carolUser rfl rfl⟩

/-- C9: for an existing account with active = false, the account-disabled
error is raised before password verification: the outcome is the same 401
error for every KDF verdict and every supplied password. -/
theorem pip_disabled_before_password_check (db : UserDB) (username : String)
    (u : User) (kdf1 kdf2 : String → String → Bool) (p1 p2 : String)
    (hf : findUserByUsername db username = some u)
    (ha : u.is_active = false) :
    get_current_pip_user kdf1 db (some { username := username, password := p1 }) =
      .error { status := 401, detail := .accountDisabled } ∧
    get_current_pip_user kdf1 db (some { username := username, password := p1 }) =
      get_current_pip_user kdf2 db (some { username := username, password := p2 }) := by
  constructor <;> simp [get_current_pip_user, hf, ha]

theorem pip_disabled_before_password_check_witness :
    findUserByUsername [carolUser] "carol" = some carolUser ∧
    carolUser.is_active = false ∧
    (get_current_pip_user kdfAccept [carolUser]
        (some { username := "carol", password := "right-pw" }) =
      .error { status := 401, detail := .accountDisabled } ∧
     get_current_pip_user kdfAccept [carolUser]
        (some { username := "carol", password := "right-pw" }) =
      get_current_pip_user kdfReject [carolUser]
        (some { username := "carol", password := "wrong-pw" })) :=
  ⟨rfl, rfl,
   pip_disabled_before_password_check [carolUser] "carol" carolUser
     kdfAccept kdfReject "right-pw" "wrong-pw" rfl rfl⟩

/-- C3: any presentation of a CSRF state token that finds it in the store
deletes it, so a second consume of the same token yields the Invalid error,
regardless of the first outcome. -/
theorem state_single_use (cache : StateCache) (state : String)
    (now1 now2 : Int) (expiry : Int)
    (h : alLookup cache state = some expiry) :
    alLookup (check_and_clear_state cache now1 state).2 state = none ∧
    (check_and_clear_state (check_and_clear_state cache now1 state).2
        now2 state).1 =
      .error { status := 400, detail := .stateInvalid } := by
  have h2 : (check_and_clear_state cache now1 state).2 = alErase cache state := by
    unfold check_and_clear_state
    rw [h]
    by_cases hc : expiry < now1 <;> simp [hc]
  have h3 : alLookup (alErase cache state) state = none :=
    alLookup_erase_self cache state
  refine ⟨h2 ▸ h3, ?_⟩
  rw [h2]
  unfold check_and_clear_state
  rw [h3]

theorem state_single_use_witness :
    alLookup [("tok", (50 : Int))] "tok" = some 50 ∧
    (alLookup (check_and_clear_state [("tok", 50)] 100 "tok").2 "tok" = none ∧
     (check_and_clear_state (check_and_clear_state [("tok", 50)] 100 "tok").2
         200 "tok").1 =
       .error { status := 400, detail := .stateInvalid }) :=
  ⟨rfl, state_single_use [("tok", 50)] "tok" 100 200 50 rfl⟩

/-- C4 counterexample: a state token present with stored expiry equal to the
current time is consumed with success, while the claim demands Expired for
expiry less than or equal to now. -/
theorem state_boundary_counterexample :
    (check_and_clear_state [("s", 100)] 100 "s").1 = .ok () ∧
    (Except.ok () : Except HTTPError Unit) ≠
      .error { status := 400, detail := .stateExpired } :=
  ⟨rfl, fun h => Except.noConfusion h⟩

/-- C4 (amended): a present token whose stored expiry is strictly less than
the current time is deleted and yields Expired; a token whose expiry is
greater than or equal to now is consumed with success (and deleted). -/
theorem state_expiry_boundary (cache : StateCache) (state : String)
    (now expiry : Int) (h : alLookup cache state = some expiry) :
    (expiry < now → check_and_clear_state cache now state =
       (.error { status := 400, detail := .stateExpired }, alErase cache state)) ∧
    (now ≤ expiry → check_and_clear_state cache now state =
       (.ok (), alErase cache state)) := by
  constructor
  · intro hlt
    simp [check_and_clear_state, h, hlt]
  · intro hle
    simp [check_and_clear_state, h, Int.not_lt.mpr hle]

theorem state_expiry_boundary_witness :
    alLookup [("t", (10 : Int))] "t" = some 10 ∧
    ((10 : Int) < 20 → check_and_clear_state [("t", 10)] 20 "t" =
       (.error { status := 400, detail := .stateExpired },
        alErase [("t", 10)] "t")) ∧
    ((20 : Int) ≤ 10 → check_and_clear_state [("t", 10)] 20 "t" =
       (.ok (), alErase [("t", 10)] "t")) :=
  ⟨rfl, state_expiry_boundary [("t", 10)] "t" 20 10 rfl⟩

theorem cacheJwksKeys_cons (now : Int) (kid : String) (k : JwkRaw)
    (rest : List JwkRaw) (cache : JwksCache) (t : Option PublicKey) :
    cacheJwksKeys now kid (k :: rest) cache t =
      cacheJwksKeys now kid rest
        (alUpsert cache k.kid ⟨jwk_construct k, now + JWKS_TTL_SECONDS⟩)
        (if k.kid = some kid then some (jwk_construct k) else t) := rfl

theorem cacheJwksKeys_target_of_no_match (now : Int) (kid : String)
    (keys : List JwkRaw) (cache : JwksCache) (t : Option PublicKey)
    (h : ∀ r ∈ keys, r.kid ≠ some kid) :
    (cacheJwksKeys now kid keys cache t).1 = t := by
  induction keys generalizing cache t with
  | nil => rfl
  | cons k rest ih =>
    have hk : ¬ (k.kid = some kid) := h k (List.mem_cons_self _ _)
    have hrest : ∀ r ∈ rest, r.kid ≠ some kid :=
      fun r hr => h r (List.mem_cons_of_mem _ hr)
    rw [cacheJwksKeys_cons, if_neg hk]
    exact ih _ _ hrest

theorem cacheJwksKeys_preserves_other (now : Int) (kid : String)
    (keys : List JwkRaw) (cache : JwksCache) (t : Option PublicKey)
    (k0 : Option String) (h : ∀ r ∈ keys, r.kid ≠ k0) :
    alLookup (cacheJwksKeys now kid keys cache t).2 k0 = alLookup cache k0 := by
  induction keys generalizing cache t with
  | nil => rfl
  | cons k rest ih =>
    have hk : k.kid ≠ k0 := h k (List.mem_cons_self _ _)
    have hrest : ∀ r ∈ rest, r.kid ≠ k0 :=
      fun r hr => h r (List.mem_cons_of_mem _ hr)
    rw [cacheJwksKeys_cons, ih _ _ hrest,
      alLookup_upsert_ne _ _ _ _ (Ne.symm hk)]

theorem cacheJwksKeys_mem_cached (now : Int) (kid : String)
    (keys : List JwkRaw) (cache : JwksCache) (t : Option PublicKey)
    (k0 : Option String) (h : ∃ r ∈ keys, r.kid = k0) :
    ∃ r2 ∈ keys, r2.kid = k0 ∧
      alLookup (cacheJwksKeys now kid keys cache t).2 k0 =
        some ⟨jwk_construct r2, now + JWKS_TTL_SECONDS⟩ := by
  induction keys generalizing cache t with
  | nil =>
    obtain ⟨r, hr, _⟩ := h
    exact absurd hr (List.not_mem_nil r)
  | cons k rest ih =>
    by_cases hrest : ∃ r ∈ rest, r.kid = k0
    · obtain ⟨r2, hr2, hkid, hlook⟩ :=
        ih (alUpsert cache k.kid ⟨jwk_construct k, now + JWKS_TTL_SECONDS⟩)
           (if k.kid = some kid then some (jwk_construct k) else t) hrest
      refine ⟨r2, List.mem_cons_of_mem _ hr2, hkid, ?_⟩
      rw [cacheJwksKeys_cons]
      exact hlook
    · have hknone : ∀ r ∈ rest, r.kid ≠ k0 := by
        intro r hr hcontra
        exact hrest ⟨r, hr, hcontra⟩
      have hkk : k.kid = k0 := by
        obtain ⟨r, hr, hkid⟩ := h
        rcases List.mem_cons.mp hr with hkr | hrr
        · rw [← hkr]; exact hkid
        · exact absurd hkid (hknone r hrr)
      refine ⟨k, List.mem_cons_self _ _, hkk, ?_⟩
      rw [cacheJwksKeys_cons,
        cacheJwksKeys_preserves_other now kid rest _ _ k0 hknone, ← hkk]
      exact alLookup_upsert_self _ _ _

theorem get_jwks_key_miss_eq (now : Int) (kid : String) (cache : JwksCache)
    (metaOutcome : Except HTTPError OidcDoc) (resp : JwksResponse)
    (hmiss : ∀ e, alLookup cache (some kid) = some e → e.expires_at ≤ now) :
    get_jwks_key now kid cache metaOutcome resp =
      jwksFetchBranch now kid cache metaOutcome resp := by
  cases hc : alLookup cache (some kid) with
  | none => simp [get_jwks_key, hc]
  | some e =>
    have hle := hmiss e hc
    simp [get_jwks_key, hc, Int.not_lt.mpr hle]

theorem jwksFetchBranch_keys_eq (now : Int) (kid : String) (cache : JwksCache)
    (doc : OidcDoc) (uri : String) (keys : List JwkRaw)
    (huri : alLookup doc "jwks_uri" = some uri) (hne : uri ≠ "") :
    jwksFetchBranch now kid cache (.ok doc) (.ok keys) =
      (match cacheJwksKeys now kid keys cache none with
       | (some target_key, cache2) => (.ok target_key, cache2)
       | (none, cache2) => (.error ⟨401, .jwksKidNotFound⟩, cache2)) := by
  simp [jwksFetchBranch, huri, hne]

/-- C5: on a JWKS cache miss with a successful fetch, every key of the
response ends up in the cache under its own kid with a 24-hour TTL, and when
the requested kid is absent from the response the lookup fails with the 401
key-not-found error, distinct from the 503 network error. -/
theorem jwks_miss_refresh (now : Int) (kid : String) (cache : JwksCache)
    (doc : OidcDoc) (uri : String) (keys : List JwkRaw)
    (hmiss : ∀ e, alLookup cache (some kid) = some e → e.expires_at ≤ now)
    (huri : alLookup doc "jwks_uri" = some uri) (hne : uri ≠ "") :
    (∀ raw ∈ keys, ∃ raw2 ∈ keys, raw2.kid = raw.kid ∧
        alLookup (get_jwks_key now kid cache (.ok doc) (.ok keys)).2 raw.kid =
          some ⟨jwk_construct raw2, now + JWKS_TTL_SECONDS⟩) ∧
    ((∀ raw ∈ keys, raw.kid ≠ some kid) →
        (get_jwks_key now kid cache (.ok doc) (.ok keys)).1 =
          .error { status := 401, detail := .jwksKidNotFound } ∧
        (HTTPError.mk 401 .jwksKidNotFound) ≠ ⟨503, .jwksFetchFailed⟩) := by
  have hq : get_jwks_key now kid cache (.ok doc) (.ok keys) =
      (match cacheJwksKeys now kid keys cache none with
       | (some target_key, cache2) => (.ok target_key, cache2)
       | (none, cache2) => (.error ⟨401, .jwksKidNotFound⟩, cache2)) := by
    rw [get_jwks_key_miss_eq now kid cache _ _ hmiss,
      jwksFetchBranch_keys_eq now kid cache doc uri keys huri hne]
  have hsnd : (get_jwks_key now kid cache (.ok doc) (.ok keys)).2 =
      (cacheJwksKeys now kid keys cache none).2 := by
    rw [hq]
    rcases hp : cacheJwksKeys now kid keys cache none with ⟨t, c2⟩
    cases t <;> rfl
  constructor
  · intro raw hraw
    obtain ⟨r2, hr2, hkid, hlook⟩ :=
      cacheJwksKeys_mem_cached now kid keys cache none raw.kid ⟨raw, hraw, rfl⟩
    exact ⟨r2, hr2, hkid, by rw [hsnd]; exact hlook⟩
  · intro hno
    have ht : (cacheJwksKeys now kid keys cache none).1 = none :=
      cacheJwksKeys_target_of_no_match now kid keys cache none hno
    refine ⟨?_, by decide⟩
    rw [hq]
    rcases hp : cacheJwksKeys now kid keys cache none with ⟨t, c2⟩
    rw [hp] at ht
    simp only at ht
    subst ht
    rfl

theorem jwks_miss_refresh_witness :
    alLookup ([] : JwksCache) (some "A") = none ∧
    alLookup [("jwks_uri", "https://idp/jwks")] "jwks_uri" =
      some "https://idp/jwks" ∧
    ((∀ raw ∈ [JwkRaw.mk (some "B") "matB", JwkRaw.mk (some "C") "matC"],
        ∃ raw2 ∈ [JwkRaw.mk (some "B") "matB", JwkRaw.mk (some "C") "matC"],
          raw2.kid = raw.kid ∧
          alLookup (get_jwks_key 0 "A" [] (.ok [("jwks_uri", "https://idp/jwks")])
              (.ok [JwkRaw.mk (some "B") "matB", JwkRaw.mk (some "C") "matC"])).2
              raw.kid =
            some ⟨jwk_construct raw2, 0 + JWKS_TTL_SECONDS⟩) ∧
     ((∀ raw ∈ [JwkRaw.mk (some "B") "matB", JwkRaw.mk (some "C") "matC"],
          raw.kid ≠ some "A") →
        (get_jwks_key 0 "A" [] (.ok [("jwks_uri", "https://idp/jwks")])
            (.ok [JwkRaw.mk (some "B") "matB", JwkRaw.mk (some "C") "matC"])).1 =
          .error { status := 401, detail := .jwksKidNotFound } ∧
        (HTTPError.mk 401 .jwksKidNotFound) ≠ ⟨503, .jwksFetchFailed⟩)) :=
  ⟨rfl, rfl,
   jwks_miss_refresh 0 "A" [] [("jwks_uri", "https://idp/jwks")]
     "https://idp/jwks"
     [JwkRaw.mk (some "B") "matB", JwkRaw.mk (some "C") "matC"]
     (fun e he => by simp [alLookup] at he) rfl
     (by decide)⟩

/-- C10: when a JWKS lookup ends in the 401 key-not-found error, the cache
update is not rolled back: every key of the fetched response is still present
in the cache under its own kid with the 24-hour TTL. -/
theorem jwks_not_found_keeps_cache (now : Int) (kid : String)
    (cache : JwksCache) (doc : OidcDoc) (uri : String) (keys : List JwkRaw)
    (hmiss : ∀ e, alLookup cache (some kid) = some e → e.expires_at ≤ now)
    (huri : alLookup doc "jwks_uri" = some uri) (hne : uri ≠ "")
    (hno : ∀ raw ∈ keys, raw.kid ≠ some kid) :
    (get_jwks_key now kid cache (.ok doc) (.ok keys)).1 =
      .error { status := 401, detail := .jwksKidNotFound } ∧
    ∀ raw ∈ keys, ∃ raw2 ∈ keys, raw2.kid = raw.kid ∧
      alLookup (get_jwks_key now kid cache (.ok doc) (.ok keys)).2 raw.kid =
        some ⟨jwk_construct raw2, now + JWKS_TTL_SECONDS⟩ := by
  have hq : get_jwks_key now kid cache (.ok doc) (.ok keys) =
      (match cacheJwksKeys now kid keys cache none with
       | (some target_key, cache2) => (.ok target_key, cache2)
       | (none, cache2) => (.error ⟨401, .jwksKidNotFound⟩, cache2)) := by
    rw [get_jwks_key_miss_eq now kid cache _ _ hmiss,
      jwksFetchBranch_keys_eq now kid cache doc uri keys huri hne]
  have hsnd : (get_jwks_key now kid cache (.ok doc) (.ok keys)).2 =
      (cacheJwksKeys now kid keys cache none).2 := by
    rw [hq]
    rcases hp : cacheJwksKeys now kid keys cache none with ⟨t, c2⟩
    cases t <;> rfl
  constructor
  · have ht : (cacheJwksKeys now kid keys cache none).1 = none :=
      cacheJwksKeys_target_of_no_match now kid keys cache none hno
    rw [hq]
    rcases hp : cacheJwksKeys now kid keys cache none with ⟨t, c2⟩
    rw [hp] at ht
    simp only at ht
    subst ht
    rfl
  · intro raw hraw
    obtain ⟨r2, hr2, hkid, hlook⟩ :=
      cacheJwksKeys_mem_cached now kid keys cache none raw.kid ⟨raw, hraw, rfl⟩
    exact ⟨r2, hr2, hkid, by rw [hsnd]; exact hlook⟩

theorem jwks_not_found_keeps_cache_witness :
    ((get_jwks_key 5 "Z" [] (.ok [("jwks_uri", "https://idp/jwks")])
        (.ok [JwkRaw.mk (some "B") "matB"])).1 =
      .error { status := 401, detail := .jwksKidNotFound } ∧
     ∀ raw ∈ [JwkRaw.mk (some "B") "matB"],
       ∃ raw2 ∈ [JwkRaw.mk (some "B") "matB"], raw2.kid = raw.kid ∧
         alLookup (get_jwks_key 5 "Z" [] (.ok [("jwks_uri", "https://idp/jwks")])
             (.ok [JwkRaw.mk (some "B") "matB"])).2 raw.kid =
           some ⟨jwk_construct raw2, 5 + JWKS_TTL_SECONDS⟩) :=
  jwks_not_found_keeps_cache 5 "Z" [] [("jwks_uri", "https://idp/jwks")]
    "https://idp/jwks" [JwkRaw.mk (some "B") "matB"]
    (fun e he => by simp [alLookup] at he) rfl (by decide) (by decide)

/-- C6: issuing a token for a subject and verifying it before its expiry
instant yields claims whose sub field equals the subject exactly, for every
subject string, configuration and lifetime. -/
theorem token_roundtrip_sub (cfg : AppSettings) (now verify_time : Int)
    (subject : String) (expires_delta : Option Int)
    (h : verify_time <
      (create_access_token cfg now ⟨subject⟩ expires_delta).payload.exp) :
    ∃ c, decode_access_token cfg verify_time
          (create_access_token cfg now ⟨subject⟩ expires_delta) = some c ∧
        c.sub = subject := by
  refine ⟨(create_access_token cfg now ⟨subject⟩ expires_delta).payload, ?_, rfl⟩
  unfold decode_access_token jose_jwt_decode
  rw [if_pos]
  exact ⟨rfl, by simp [create_access_token, jose_jwt_encode], h⟩

theorem token_roundtrip_sub_witness :
    (10 : Int) <
      (create_access_token ⟨"secret", "HS256", 60⟩ 0 ⟨"alice"⟩ none).payload.exp ∧
    ∃ c, decode_access_token ⟨"secret", "HS256", 60⟩ 10
          (create_access_token ⟨"secret", "HS256", 60⟩ 0 ⟨"alice"⟩ none) = some c ∧
        c.sub = "alice" :=
  ⟨by decide,
   token_roundtrip_sub ⟨"secret", "HS256", 60⟩ 0 10 "alice" none (by decide)⟩

/-- C7: when the metadata cache misses and the fetch fails, a network failure
surfaces the 503 service-unavailable error and a malformed or incomplete
discovery response surfaces the 500 server-error, and in every failure case
the metadata cache is returned unchanged. -/
theorem oidc_failure_leaves_cache (cfg : OIDCSettings) (cache : MetaCache)
    (now : Int) (resp : DiscoveryResponse) (issuer : String)
    (hcfg : cfg.issuer_url = some issuer) (hne : issuer ≠ "")
    (hmiss : ∀ e, alLookup cache issuer = some e → e.expires_at ≤ now) :
    (resp = .netError →
      get_oidc_metadata cfg cache now resp =
        (.error { status := 503, detail := .oidcConnectionFailed }, cache)) ∧
    ((resp = .statusError ∨ resp = .badJson) →
      get_oidc_metadata cfg cache now resp =
        (.error { status := 500, detail := .oidcMetadataProcessing }, cache)) ∧
    (∀ doc, resp = .ok doc → hasRequiredOidcFields doc = false →
      get_oidc_metadata cfg cache now resp =
        (.error { status := 500, detail := .oidcMetadataProcessing }, cache)) := by
  have hfetch : get_oidc_metadata cfg cache now resp =
      oidcFetch cache now resp issuer := by
    cases hc : alLookup cache issuer with
    | none => simp [get_oidc_metadata, hcfg, hne, hc]
    | some e =>
      have hle := hmiss e hc
      simp [get_oidc_metadata, hcfg, hne, hc, Int.not_lt.mpr hle]
  refine ⟨?_, ?_, ?_⟩
  · rintro rfl
    rw [hfetch]
    rfl
  · rintro (rfl | rfl) <;> (rw [hfetch]; rfl)
  · rintro doc rfl hbad
    rw [hfetch]
    simp [oidcFetch, hbad]

theorem oidc_failure_leaves_cache_witness :
    (OIDCSettings.issuer_url ⟨true, some "https://idp", false⟩ =
      some "https://idp") ∧
    ((DiscoveryResponse.netError = .netError →
      get_oidc_metadata ⟨true, some "https://idp", false⟩
          [("other", ⟨[("token_endpoint", "t")], 999⟩)] 0 .netError =
        (.error { status := 503, detail := .oidcConnectionFailed },
         [("other", ⟨[("token_endpoint", "t")], 999⟩)])) ∧
     ((DiscoveryResponse.netError = .statusError ∨
       DiscoveryResponse.netError = .badJson) →
      get_oidc_metadata ⟨true, some "https://idp", false⟩
          [("other", ⟨[("token_endpoint", "t")], 999⟩)] 0 .netError =
        (.error { status := 500, detail := .oidcMetadataProcessing },
         [("other", ⟨[("token_endpoint", "t")], 999⟩)])) ∧
     (∀ doc, DiscoveryResponse.netError = .ok doc →
        hasRequiredOidcFields doc = false →
        get_oidc_metadata ⟨true, some "https://idp", false⟩
            [("other", ⟨[("token_endpoint", "t")], 999⟩)] 0 .netError =
          (.error { status := 500, detail := .oidcMetadataProcessing },
           [("other", ⟨[("token_endpoint", "t")], 999⟩)]))) :=
  ⟨rfl,
   oidc_failure_leaves_cache ⟨true, some "https://idp", false⟩
     [("other", ⟨[("token_endpoint", "t")], 999⟩)] 0 .netError "https://idp"
     rfl (by decide) (fun e he => by simp [alLookup] at he)⟩

/-- C8: the generate-token route stores an opaque token hash in the target
account's password-hash field exactly when the target is a service account or
SSO-managed; for any other target it fails with 400 and the user table is
unchanged, and on the failed resolution paths the table is also unchanged. -/
theorem generate_token_flag_invariant (db : UserDB) (current_user : User)
    (user_id : Nat) (new_token : String) (hash : String → String)
    (target : User)
    (hres : resolve_target_user db current_user user_id = .ok target) :
    (target.is_service_account = false → target.is_sso_managed = false →
      generate_token db current_user user_id new_token hash =
        (.error { status := 400, detail := .tokenGenBadAccountType }, db)) ∧
    ((target.is_service_account = true ∨ target.is_sso_managed = true) →
      generate_token db current_user user_id new_token hash =
        (.ok ⟨new_token,
              if target.id = current_user.id then .forOwnAccount
              else .forOtherAccount target.username⟩,
         saveUser db { target with hashed_password := some (hash new_token) }) ∧
      ({ target with hashed_password := some (hash new_token) } : User).hashed_password
        = some (hash new_token)) := by
  constructor
  · intro hsvc hsso
    simp [generate_token, hres, hsvc, hsso]
  · intro hflag
    refine ⟨?_, rfl⟩
    have hcond : ¬ (target.is_service_account = false ∧
        target.is_sso_managed = false) := by
      rcases hflag with hf | hf <;> simp [hf]
    simp [generate_token, hres, hcond]

theorem generate_token_flag_invariant_witness :
    resolve_target_user [ciBotUser] ciBotUser 3 = .ok ciBotUser ∧
    ((ciBotUser.is_service_account = false → ciBotUser.is_sso_managed = false →
      generate_token [ciBotUser] ciBotUser 3 "tok123" hashConcat =
        (.error { status := 400, detail := .tokenGenBadAccountType },
         [ciBotUser])) ∧
     ((ciBotUser.is_service_account = true ∨ ciBotUser.is_sso_managed = true) →
      generate_token [ciBotUser] ciBotUser 3 "tok123" hashConcat =
        (.ok ⟨"tok123",
              if ciBotUser.id = ciBotUser.id then .forOwnAccount
              else .forOtherAccount ciBotUser.username⟩,
         saveUser [ciBotUser]
           { ciBotUser with hashed_password := some (hashConcat "tok123") }) ∧
      ({ ciBotUser with hashed_password := some (hashConcat "tok123") } : User).hashed_password
        = some (hashConcat "tok123"))) :=
  ⟨rfl,
   generate_token_flag_invariant [ciBotUser] ciBotUser 3 "tok123" hashConcat
     ciBotUser rfl⟩
